import Mathlib

/-!
Verification of the 9P2000.L server core (`lib/9p-filer.js`) and the
browser file storage (`src/browser/filestorage.js`).

The JavaScript source is shallowly embedded: each handler of
`Virtio9p.prototype.ReceiveRequest` that the claims touch becomes a pure
Lean function over an explicit `Server` state; the asynchronous backend
is a parameter (an oracle `String → Except String Stats`, or an explicit
`Event` for `fs.readFile` completions).  Machine numbers are `Nat`/`Int`
with explicit `% 2^32` where JavaScript coerces to 32 bits.  The
`replybuffer` field models the meaningful prefix of the reply buffer,
i.e. the first `replybuffersize` bytes after `BuildReply` ran.
-/

set_option linter.unusedVariables false

/-! ## Constants from the source -/

def VERSION : String := "9P2000.L"

def BLOCKSIZE : Nat := 8192

def P9_TLOPEN : Nat := 12
def P9_TSETATTR : Nat := 26
def P9_TFLUSH : Nat := 108
def P9_TWALK : Nat := 110
def P9_TVERSION : Nat := 100
def P9_TREAD : Nat := 116
def P9_TCLUNK : Nat := 120

def FID_NONE : Int := -1
def FID_INODE : Int := 1
def FID_XATTR : Int := 2

def P9_QTDIR : Nat := 0x80
def P9_QTSYMLINK : Nat := 0x02
def P9_QTFILE : Nat := 0x00

/-- Mapping of Filer node.js errors to POSIX (errno.h), from
`POSIX_ERR_CODE_MAP` in `lib/9p-filer.js`.  A kind missing from the
object yields JavaScript `undefined`, modelled as `none`. -/
def posixErrCodeMap : String → Option Nat
  | "EPERM" => some 1
  | "ENOENT" => some 2
  | "EBADF" => some 9
  | "EBUSY" => some 11
  | "EINVAL" => some 22
  | "ENOTDIR" => some 20
  | "EISDIR" => some 21
  | "EEXIST" => some 17
  | "ELOOP" => some 40
  | "ENOTEMPTY" => some 39
  | "EIO" => some 5
  | _ => none

/-! ## Marshaller

`lib/marshall.js` is not part of the sources given; the byte encodings
below follow the spec's table of primitive types (§4.1): all integers
little-endian, strings length-prefixed UTF-8, QID encoded as `b w d`. -/

/-- Modelled from the spec: `marshall.Marshall` with format "b" writes one
byte, the value modulo 256. -/
def marshallB (v : Nat) : List Nat := [v % 256]

/-- Modelled from the spec: format "h" writes a u16 little-endian. -/
def marshallH (v : Nat) : List Nat := [v % 256, v / 256 % 256]

/-- Modelled from the spec: format "w" writes a u32 little-endian. -/
def marshallW (v : Nat) : List Nat :=
  [v % 256, v / 2 ^ 8 % 256, v / 2 ^ 16 % 256, v / 2 ^ 24 % 256]

/-- Modelled from the spec: format "d" writes a u64 little-endian. -/
def marshallD (v : Nat) : List Nat :=
  [v % 256, v / 2 ^ 8 % 256, v / 2 ^ 16 % 256, v / 2 ^ 24 % 256,
   v / 2 ^ 32 % 256, v / 2 ^ 40 % 256, v / 2 ^ 48 % 256, v / 2 ^ 56 % 256]

/-- UTF-8 encoding of a single character (for the "s" format). -/
def utf8Encode (c : Char) : List Nat :=
  let v := c.toNat
  if v < 0x80 then [v]
  else if v < 0x800 then [0xC0 + v / 0x40, 0x80 + v % 0x40]
  else if v < 0x10000 then
    [0xE0 + v / 0x1000, 0x80 + v / 0x40 % 0x40, 0x80 + v % 0x40]
  else
    [0xF0 + v / 0x40000, 0x80 + v / 0x1000 % 0x40, 0x80 + v / 0x40 % 0x40,
     0x80 + v % 0x40]

/-- UTF-8 bytes of a string. -/
def strBytes (s : String) : List Nat := s.data.flatMap utf8Encode

/-- Modelled from the spec: format "s" writes a u16 byte-length prefix and
then the UTF-8 bytes of the string. -/
def marshallS (s : String) : List Nat :=
  marshallH (strBytes s).length ++ strBytes s

/-- JavaScript bitwise operators coerce `undefined` to 0; marshalling an
absent errno therefore writes four zero bytes.  Modelled from the spec's
marshaller semantics plus the ECMAScript ToInt32 coercion. -/
def marshallWJs (o : Option Nat) : List Nat := marshallW (o.getD 0)

/-! ## QID assigner -/

/-- A 13-byte QID: `type[1] version[4] path[8]`. -/
structure Qid where
  type : Nat
  version : Nat
  path : Nat
  deriving DecidableEq, Repr

/-- Modelled from the spec: format "Q" is encoded as `b w d`. -/
def marshallQ (q : Qid) : List Nat :=
  marshallB q.type ++ marshallW q.version ++ marshallD q.path

/-- The backend `stats` fields that the embedded handlers consult. -/
structure Stats where
  type : String
  version : Nat
  node : String
  uid : Nat
  deriving DecidableEq, Repr

/-- The UTF-16 code units of a character, as returned by JavaScript
`String.prototype.charCodeAt` (characters above U+FFFF are surrogate
pairs). -/
def utf16CodeUnits (c : Char) : List Nat :=
  let v := c.toNat
  if v < 0x10000 then [v]
  else [0xD800 + (v - 0x10000) / 0x400, 0xDC00 + (v - 0x10000) % 0x400]

/-- The sequence of UTF-16 code units of a string. -/
def strCodeUnits (s : String) : List Nat := s.data.flatMap utf16CodeUnits

/-- One iteration of the `hash32` loop: `hash = (hash * 33) ^ c`.
JavaScript performs the XOR on 32-bit integers; on the unsigned
representative this is multiplication modulo `2^32` followed by XOR. -/
def hash32Step (h c : Nat) : Nat := ((h * 33) % 2 ^ 32) ^^^ c

/-- Function `hash32` from `lib/9p-filer.js`: the djb2-xor string hash, iterating
the code units from the last to the first, seeded with 5381, the result
taken unsigned (`>>> 0`). -/
def hash32 (s : String) : Nat :=
  (strCodeUnits s).reverse.foldl hash32Step 5381

/-- Function `getQType` from `lib/9p-filer.js`. -/
def getQType (type : String) : Nat :=
  if type = "FILE" then P9_QTFILE
  else if type = "DIRECTORY" then P9_QTDIR
  else if type = "SYMLINK" then P9_QTSYMLINK
  else P9_QTFILE

/-- Function `formatQid` from `lib/9p-filer.js`.  The `path` argument is unused by
the source as well; the QID is derived from the stats alone. -/
def formatQid (path : String) (stats : Stats) : Qid :=
  { type := getQType stats.type
    version := stats.version
    path := hash32 stats.node }

/-! ## Server state

The fields of the `Virtio9p` constructor that the claims exercise, plus
two ghost fields for stating temporal properties: `replies` records each
`(reply id, tag)` pair in the order the handlers called
`BuildReply`/`SendReply`, and `readFileCalls` counts backend
`fs.readFile` invocations. -/

/-- A fid record created by `Virtio9p.prototype.Createfid`. -/
structure Fid where
  path : String
  type : Int
  uid : Nat
  deriving DecidableEq, Repr

/-- Function `Createfid` from `lib/9p-filer.js`. -/
def Createfid (path : String) (type : Int) (uid : Nat) : Fid :=
  { path := path, type := type, uid := uid }

/-- The per-tag scratch object: `addTag` installs `{}` (no `data` field,
i.e. `none`); the Tread handler later sets `.data` to the file bytes. -/
def Scratch : Type := Option (List Nat)

instance : DecidableEq Scratch := by unfold Scratch; infer_instance

/-- The server state (the relevant `Virtio9p` instance fields). -/
structure Server where
  msize : Nat
  fids : Nat → Option Fid
  pendingTags : Nat → Option Scratch
  replybuffer : List Nat
  replybuffersize : Nat
  replies : List (Nat × Nat)
  readFileCalls : Nat

/-- Method `Virtio9p.prototype.addTag`: `this.pendingTags[tag] = {}`. -/
def addTag (s : Server) (tag : Nat) : Server :=
  { s with pendingTags := fun u => if u = tag then some none else s.pendingTags u }

/-- Method `Virtio9p.prototype.flushTag`: `delete this.pendingTags[tag]`. -/
def flushTag (s : Server) (tag : Nat) : Server :=
  { s with pendingTags := fun u => if u = tag then none else s.pendingTags u }

/-- Method `Virtio9p.prototype.shouldAbortRequest`: true iff the tag is absent
from `pendingTags`. -/
def shouldAbortRequest (s : Server) (tag : Nat) : Bool :=
  (s.pendingTags tag).isNone

/-- Store scratch data for a tag: `self.pendingTags[tag].data = data`. -/
def setTagData (s : Server) (tag : Nat) (data : List Nat) : Server :=
  { s with pendingTags := fun u => if u = tag then some (some data) else s.pendingTags u }

/-- Bind a fid: `self.fids[fid] = ...`. -/
def setFid (s : Server) (fid : Nat) (f : Fid) : Server :=
  { s with fids := fun u => if u = fid then some f else s.fids u }

/-- Drop a fid: `delete self.fids[fid]`. -/
def removeFid (s : Server) (fid : Nat) : Server :=
  { s with fids := fun u => if u = fid then none else s.fids u }

/-- The final reply-buffer contents produced by a handler writing
`payload` at offset 7 and then calling `BuildReply(id, tag, n)`, which
marshals `(n+7, id+1, tag)` at offset 0. -/
def buildReplyBytes (id tag : Nat) (payload : List Nat) : List Nat :=
  marshallW (payload.length + 7) ++ marshallB (id + 1) ++ marshallH tag ++ payload

/-- Methods `BuildReply` followed by `SendReply`: fill the reply buffer, set its
size, flush the tag, and record the sent reply. -/
def sendReplyPayload (s : Server) (id tag : Nat) (payload : List Nat) : Server :=
  let s := { s with
    replybuffer := buildReplyBytes id tag payload
    replybuffersize := payload.length + 7
    replies := s.replies ++ [(id + 1, tag)] }
  flushTag s tag

/-- Method `Virtio9p.prototype.SendError`: look `err.code` up in
`POSIX_ERR_CODE_MAP` (possibly `undefined`), marshal it as a u32 at
offset 7 and build an `Rlerror` (`BuildReply(6, tag, 4)`, reply id 7). -/
def sendErrorSrv (s : Server) (tag : Nat) (code : String) : Server :=
  sendReplyPayload s 6 tag (marshallWJs (posixErrCodeMap code))

/-- Method `Virtio9p.prototype.Reset`: `this.fids = {}`. -/
def Reset (s : Server) : Server :=
  { s with fids := fun _ => none }

/-! ## Handlers -/

/-- The `P9_TVERSION` case of `ReceiveRequest`: register the tag, set
`this.msize = version[0]` (the client-requested value, unconditionally),
marshal `[this.msize, this.VERSION]` as `w s`, build the reply.  The
case neither takes a minimum with the previous msize nor calls
`Reset`. -/
def tversionStep (tag reqMsize : Nat) (s : Server) : Server :=
  let s := addTag s tag
  let s := { s with msize := reqMsize }
  sendReplyPayload s P9_TVERSION tag (marshallW reqMsize ++ marshallS VERSION)

/-- JavaScript runtime errors thrown by a handler (uncaught): the only
one the embedded handlers can raise is the `TypeError` from reading
`.path` of `undefined` when a fid is not in the table. -/
inductive JsError where
  | typeError
  deriving DecidableEq, Repr

/-- The `P9_TLOPEN` case of `ReceiveRequest`, with the backend `fs.stat`
answering synchronously through the `stat` oracle.  The handler reads
`this.fids[fid].path` before anything else: an unknown fid throws a
`TypeError` (there is no EBADF check). -/
def tlopenStep (stat : String → Except String Stats) (tag fid : Nat)
    (s : Server) : Except JsError Server :=
  let s := addTag s tag
  match s.fids fid with
  | none => .error .typeError
  | some f =>
    if shouldAbortRequest s tag then .ok s
    else
      match stat f.path with
      | .error e => .ok (sendErrorSrv s tag e)
      | .ok stats =>
        .ok (sendReplyPayload s P9_TLOPEN tag
          (marshallQ (formatQid f.path stats) ++ marshallW (s.msize - 24)))

/-- The `P9_TCLUNK` case of `ReceiveRequest`: reads
`self.fids[fid].path` (TypeError on unknown fid), deletes the fid and
replies with an empty body. -/
def tclunkStep (tag fid : Nat) (s : Server) : Except JsError Server :=
  let s := addTag s tag
  match s.fids fid with
  | none => .error .typeError
  | some _ => .ok (sendReplyPayload (removeFid s fid) P9_TCLUNK tag [])

/-! ## Tread: the `_read` closure and the readFile cache -/

/-- ECMAScript ToUint32, applied when a JavaScript number is marshalled
as a u32. -/
def jsToUint32 (x : Int) : Nat := (x % (2 ^ 32 : Int)).toNat

/-- The clamped count computed by `_read` in the `P9_TREAD` case:
`if (offset + count > size) count = size - offset` on JavaScript
numbers, so the result may be negative when `offset > size`. -/
def jsReadCount (len offset count : Nat) : Int :=
  if len < offset + count then (len : Int) - (offset : Int) else (count : Int)

/-- The data bytes copied by the `_read` loop
`for(i=0; i<count; i++) replybuffer[7+4+i] = data[offset+i]` (a
JavaScript read past the end yields `undefined`, coerced to 0 by the
Uint8Array store; a negative count copies nothing). -/
def readData (data : List Nat) (offset n : Nat) : List Nat :=
  (List.range n).map (fun i => data.getD (offset + i) 0)

/-- The full payload `_read` leaves at offset 7: `count[4]` then the
copied bytes. -/
def readPayload (data : List Nat) (offset count : Nat) : List Nat :=
  marshallW (jsToUint32 (jsReadCount data.length offset count))
    ++ readData data offset (jsReadCount data.length offset count).toNat

/-- Closure `_read(data)` followed by `BuildReply`/`SendReply` in the
`P9_TREAD` case. -/
def treadReply (s : Server) (tag : Nat) (data : List Nat)
    (offset count : Nat) : Server :=
  sendReplyPayload s P9_TREAD tag (readPayload data offset count)

/-- The synchronous part of the `P9_TREAD` case: `addTag`, then consult
`self.pendingTags[tag].data`; on a hit reply immediately from the cache,
otherwise issue `fs.readFile` (counted in the ghost field; its callback
arrives later as a `treadDone` event). -/
def treadStart (tag offset count : Nat) (s : Server) : Server :=
  let s := addTag s tag
  match s.pendingTags tag with
  | some (some data) => treadReply s tag data offset count
  | _ => { s with readFileCalls := s.readFileCalls + 1 }

/-- The `fs.readFile` callback of the `P9_TREAD` case: first check
`shouldAbortRequest` and silently return if the tag was flushed; then
either `SendError` or store the data in the tag scratch and run
`_read`. -/
def treadDone (res : Except String (List Nat)) (tag offset count : Nat)
    (s : Server) : Server :=
  match shouldAbortRequest s tag with
  | true => s
  | false =>
    match res with
    | .error e => sendErrorSrv s tag e
    | .ok data => treadReply (setTagData s tag data) tag data offset count

/-- The `P9_TFLUSH` case of `ReceiveRequest`: register the flush frame's
own tag, `flushTag(oldtag)`, reply `Rflush` with an empty body. -/
def tflushStep (tag oldtag : Nat) (s : Server) : Server :=
  let s := addTag s tag
  let s := flushTag s oldtag
  sendReplyPayload s P9_TFLUSH tag []

/-- The synchronous part of the `P9_TSETATTR` case: register the tag and
build the promises.  The Promise executors run synchronously right here,
so their `shouldAbortRequest(tag)` guards test the tag that `addTag`
just installed and can never fire (and the SIZE promise has no guard at
all): the backend operations (`chmod`/`chown`/`utimes`/`truncate`) are
always issued.  None of them touches the `Virtio9p` state; the reply is
sent by the `Promise.all` settlement, modelled by `tsetattrDone`. -/
def tsetattrStart (tag : Nat) (s : Server) : Server :=
  addTag s tag

/-- The `Promise.all(promises).then`/`.catch` settlement of the
`P9_TSETATTR` case: unlike the `fs` callbacks of the other handlers, it
performs NO `shouldAbortRequest` check — it unconditionally sends
`Rsetattr` (`BuildReply(id, tag, 0)`) on success or `Rlerror`
(`SendError(tag, err)`) on the first rejection. -/
def tsetattrDone (res : Except String Unit) (tag : Nat) (s : Server) : Server :=
  match res with
  | .ok _ => sendReplyPayload s P9_TSETATTR tag []
  | .error e => sendErrorSrv s tag e

/-! ## The event machine

The dispatcher is single-threaded: each event is either the synchronous
prefix of an incoming frame or the completion callback of a backend
operation.  This is the cooperative interleaving the source runs under. -/

/-- An atomic step of the event loop. -/
inductive Event where
  | treadStart (tag offset count : Nat)
  | treadDone (res : Except String (List Nat)) (tag offset count : Nat)
  | tsetattrStart (tag : Nat)
  | tsetattrDone (res : Except String Unit) (tag : Nat)
  | tflush (tag oldtag : Nat)
  deriving Repr

/-- The tag a step concerns: the frame tag for frame arrivals, the
request tag for a resumption. -/
def eventTag : Event → Nat
  | .treadStart tag _ _ => tag
  | .treadDone _ tag _ _ => tag
  | .tsetattrStart tag => tag
  | .tsetattrDone _ tag => tag
  | .tflush tag _ => tag

/-- Run one event. -/
def step (s : Server) : Event → Server
  | .treadStart tag offset count => treadStart tag offset count s
  | .treadDone res tag offset count => treadDone res tag offset count s
  | .tsetattrStart tag => tsetattrStart tag s
  | .tsetattrDone res tag => tsetattrDone res tag s
  | .tflush tag oldtag => tflushStep tag oldtag s

/-- Run a sequence of events. -/
def runEvents (s : Server) (evs : List Event) : Server :=
  evs.foldl step s

/-! ## Twalk -/

/-- Modelled from the spec: Filer's `Path.join` of a directory path and
one name component (`lib/path.js` is not among the sources). -/
def pathJoin (p n : String) : String :=
  if p.data.getLast? = some '/' then p ++ n else p ++ "/" ++ n

/-- The recursive `_walk` closure of the `P9_TWALK` case.  It shifts the
next part and checks `if(!part)`: `part` is `undefined` when the list is
exhausted and `""` is also falsy, so in both cases the loop marshals
`nwidx` and the collected QIDs and replies `Rwalk` success without
statting anything further.  Otherwise it joins the component, `stat`s
it, and on success binds `nwfid` to the walked path before recursing —
on failure `SendError` with that component's error, leaving any earlier
`nwfid` binding in place. -/
def walkLoop (stat : String → Except String Stats) (tag nwfid : Nat) :
    List String → String → Nat → List Nat → Server → Server
  | [], _, nwidx, qids, s =>
      sendReplyPayload s P9_TWALK tag (marshallH nwidx ++ qids)
  | part :: rest, path, nwidx, qids, s =>
      if part = "" then
        sendReplyPayload s P9_TWALK tag (marshallH nwidx ++ qids)
      else
        let path := pathJoin path part
        if shouldAbortRequest s tag then s
        else
          match stat path with
          | .error e => sendErrorSrv s tag e
          | .ok stats =>
            let s := setFid s nwfid (Createfid path FID_INODE stats.uid)
            walkLoop stat tag nwfid rest path (nwidx + 1)
              (qids ++ marshallQ (formatQid path stats)) s

/-- The `P9_TWALK` case of `ReceiveRequest`.  `nwname == 0` aliases the
fid; otherwise `_walk` runs over the components.  Reading
`this.fids[fid].path` of an unknown fid throws a `TypeError`. -/
def twalkStep (stat : String → Except String Stats) (tag fid nwfid : Nat)
    (wnames : List String) (s : Server) : Except JsError Server :=
  let s := addTag s tag
  match s.fids fid with
  | none => .error .typeError
  | some f =>
    match wnames with
    | [] =>
      let s := setFid s nwfid (Createfid f.path FID_INODE f.uid)
      .ok (sendReplyPayload s P9_TWALK tag (marshallH 0))
    | _ :: _ => .ok (walkLoop stat tag nwfid wnames f.path 0 [] s)

/-! ## MemoryFileStorage (`src/browser/filestorage.js`) -/

/-- JavaScript `TypedArray.prototype.subarray(begin, end)` with
non-negative arguments: the elements in `[begin, min(end, length))`,
empty when `begin ≥ end` or `begin ≥ length`. -/
def jsSubarray (d : List Nat) (b e : Nat) : List Nat := (d.take e).drop b

/-- Class `MemoryFileStorage`: a map from sha256sum to file data. -/
structure MemoryFileStorage where
  filedata : String → Option (List Nat)

/-- Method `MemoryFileStorage.prototype.read`: `null` when the key is absent
(`Map.get` returns `undefined`, which is falsy; a present `Uint8Array`
is always truthy), otherwise `data.subarray(offset, offset + count)`. -/
def MemoryFileStorage.read (st : MemoryFileStorage) (sha256sum : String)
    (offset count : Nat) : Option (List Nat) :=
  match st.filedata sha256sum with
  | none => none
  | some data => some (jsSubarray data offset (offset + count))

/-- Method `MemoryFileStorage.prototype.cache`: `filedata.set(sha256sum, data)`. -/
def MemoryFileStorage.cache (st : MemoryFileStorage) (sha256sum : String)
    (data : List Nat) : MemoryFileStorage :=
  { filedata := fun k => if k = sha256sum then some data else st.filedata k }

/-- Method `MemoryFileStorage.prototype.uncache`: `filedata.delete(sha256sum)`. -/
def MemoryFileStorage.uncache (st : MemoryFileStorage) (sha256sum : String) :
    MemoryFileStorage :=
  { filedata := fun k => if k = sha256sum then none else st.filedata k }

/-! ## Helpers for stating the claims -/

/-- Replies of a handler run that may have thrown. -/
def exceptReplies : Except JsError Server → Option (List (Nat × Nat))
  | .ok s => some s.replies
  | .error _ => none

/-- Reply buffer of a handler run that may have thrown. -/
def exceptBuffer : Except JsError Server → Option (List Nat)
  | .ok s => some s.replybuffer
  | .error _ => none

/-- A fid-table entry of a handler run that may have thrown. -/
def exceptFids : Except JsError Server → Nat → Option (Option Fid)
  | .ok s, fid => some (s.fids fid)
  | .error _, _ => none

/-- Whether a handler run completed without throwing. -/
def exceptOk : Except JsError Server → Bool
  | .ok _ => true
  | .error _ => false

/-- Characterization of `_walk`: whether some component's `stat` fails. -/
def walkFails (stat : String → Except String Stats) :
    String → List String → Bool
  | _, [] => false
  | path, part :: rest =>
    if part = "" then false
    else
      match stat (pathJoin path part) with
      | .error _ => true
      | .ok _ => walkFails stat (pathJoin path part) rest

/-- Characterization of `_walk`: the error of the first failing
component (meaningful when `walkFails` holds; an empty-string component
ends the walk with success first). -/
def firstWalkErr (stat : String → Except String Stats) :
    String → List String → String
  | _, [] => ""
  | path, part :: rest =>
    if part = "" then ""
    else
      match stat (pathJoin path part) with
      | .error e => e
      | .ok _ => firstWalkErr stat (pathJoin path part) rest

/-- Characterization of `_walk`: the binding `nwfid` holds after the
loop, starting from a previous binding — rebound at every successful
component, left alone from the failing or empty one on. -/
def walkBindResult (stat : String → Except String Stats) :
    String → List String → Option Fid → Option Fid
  | _, [], prev => prev
  | path, part :: rest, prev =>
    if part = "" then prev
    else
      match stat (pathJoin path part) with
      | .error _ => prev
      | .ok st =>
        walkBindResult stat (pathJoin path part) rest
          (some (Createfid (pathJoin path part) FID_INODE st.uid))

/-! ## Concrete fixtures -/

/-- The state of a freshly constructed `Virtio9p`. -/
def initServer : Server :=
  { msize := 8192
    fids := fun _ => none
    pendingTags := fun _ => none
    replybuffer := []
    replybuffersize := 0
    replies := []
    readFileCalls := 0 }

/-- A server with one attached fid (fid 0 at the root). -/
def attachedServer : Server :=
  { initServer with
    fids := fun u => if u = 0 then some (Createfid "/" FID_INODE 0) else none }

/-- A backend whose every `stat` fails with ENOENT. -/
def statENOENT : String → Except String Stats := fun _ => .error "ENOENT"

/-- A server with a Tread for tag 5 in flight (readFile issued, callback
pending). -/
def flushDemoStart : Server := step initServer (.treadStart 5 0 3)

/-- Unrelated traffic on another tag between the flush and the
resumption. -/
def flushDemoEvents : List Event := [.treadStart 9 0 1]

/-- Tag reuse after a flush: Tread on tag 5, Tflush(5), a new Tread
reusing tag 5, then the FIRST Tread's readFile callback fires (it
carries the original offset 0 and count 2). -/
def reuseTrace : List Event :=
  [.treadStart 5 0 2, .tflush 6 5, .treadStart 5 9 1,
   .treadDone (.ok [1, 2, 3]) 5 0 2]

/-- Two Tread frames under the same tag, the second arriving before any
completion or flush. -/
def doubleTread : List Event := [.treadStart 5 0 4, .treadStart 5 4 4]

/-! ## C1: Tversion -/

/-- C1: the claim states that Tversion sets the session msize to
`min(client_requested, server_cap)` and resets all fids.  At a server
with msize 8192 and a bound fid, a Tversion requesting 16384 leaves
msize at 16384 (not the minimum 8192) and leaves the fid table
untouched, so the claim as stated is false. -/
theorem c1_counterexample :
    ¬ ((tversionStep 1 16384 attachedServer).msize
         = min 16384 attachedServer.msize ∧
       (tversionStep 1 16384 attachedServer).fids 0 = none) := by
  decide

/-- C1 (amended): Tversion sets the session msize to exactly the
client-requested value (no minimum is taken), replies with that msize
and the fixed version string "9P2000.L", and leaves the fid table
unchanged (no reset). -/
theorem c1_version_behavior (s : Server) (tag m : Nat) :
    (tversionStep tag m s).msize = m ∧
    (tversionStep tag m s).replybuffer
      = buildReplyBytes P9_TVERSION tag (marshallW m ++ marshallS VERSION) ∧
    (tversionStep tag m s).replies = s.replies ++ [(P9_TVERSION + 1, tag)] ∧
    (tversionStep tag m s).fids = s.fids :=
  ⟨rfl, rfl, rfl, rfl⟩

/-! ## C5: SendError and the errno table -/

/-- C5: the claim states that a backend error kind not in the mapping
table is reported as EIO (5).  `POSIX_ERR_CODE_MAP['EACCES']` is
`undefined` and `SendError` has no fallback, so the marshalled errno
body is 0, not 5: the claim as stated is false. -/
theorem c5_counterexample :
    posixErrCodeMap "EACCES" = none ∧
    (sendErrorSrv attachedServer 3 "EACCES").replybuffer
      = buildReplyBytes 6 3 (marshallW 0) ∧
    (sendErrorSrv attachedServer 3 "EACCES").replybuffer
      ≠ buildReplyBytes 6 3 (marshallW 5) := by
  decide

/-- C5 (amended): `SendError` encodes an `Rlerror` reply (reply id 7)
whose 4-byte body is the POSIX errno from the mapping table (EPERM=1,
ENOENT=2, EIO=5, EBADF=9, EBUSY=11, EEXIST=17, ENOTDIR=20, EISDIR=21,
EINVAL=22, ENOTEMPTY=39, ELOOP=40); a kind not in the table marshals the
`undefined` lookup, which encodes as errno 0 rather than EIO. -/
theorem c5_send_error_encoding (s : Server) (tag : Nat) (code : String) :
    (sendErrorSrv s tag code).replybuffer
      = marshallW 11 ++ [7] ++ marshallH tag
          ++ marshallW ((posixErrCodeMap code).getD 0) ∧
    (sendErrorSrv s tag code).replies = s.replies ++ [(7, tag)] ∧
    posixErrCodeMap "EPERM" = some 1 ∧ posixErrCodeMap "ENOENT" = some 2 ∧
    posixErrCodeMap "EIO" = some 5 ∧ posixErrCodeMap "EBADF" = some 9 ∧
    posixErrCodeMap "EBUSY" = some 11 ∧ posixErrCodeMap "EEXIST" = some 17 ∧
    posixErrCodeMap "ENOTDIR" = some 20 ∧ posixErrCodeMap "EISDIR" = some 21 ∧
    posixErrCodeMap "EINVAL" = some 22 ∧ posixErrCodeMap "ENOTEMPTY" = some 39 ∧
    posixErrCodeMap "ELOOP" = some 40 :=
  ⟨rfl, rfl, rfl, rfl, rfl, rfl, rfl, rfl, rfl, rfl, rfl, rfl, rfl⟩

/-! ## C3: the per-tag Tread cache -/

/-- C3: the claim states that all Treads under one tag cause at most one
`readFile` call, the later ones being served from the per-tag scratch.
Two Tread frames under tag 5 — the second arriving before the first
completes, so the tag was never cleared — issue two `readFile` calls,
because `addTag` at the top of `ReceiveRequest` resets the scratch on
every frame: the claim as stated is false. -/
theorem c3_counterexample :
    (runEvents initServer doubleTread).readFileCalls = 2 ∧
    ¬ (runEvents initServer doubleTread).readFileCalls ≤ 1 := by
  decide

/-- C3 (amended): every Tread frame issues its own `readFile` to the
backend, regardless of any previously cached per-tag data: frame arrival
re-registers the tag with an empty scratch, so the cache branch never
fires and no reply is served from the cache at frame arrival. -/
theorem c3_tread_always_reads (s : Server) (tag offset count : Nat) :
    (step s (.treadStart tag offset count)).readFileCalls
      = s.readFileCalls + 1 ∧
    (step s (.treadStart tag offset count)).replies = s.replies ∧
    (step s (.treadStart tag offset count)).pendingTags tag = some none := by
  simp [step, treadStart, addTag]

/-! ## C9: addTag on frame arrival -/

/-- Tag reuse after a flush revives the aborted handler (fixture for the
invariant claim): Tread on tag 3, Tflush(3), a new Tread reusing tag 3,
then the first Tread's callback — which now no longer aborts. -/
def zombieTrace : List Event :=
  [.treadStart 3 0 2, .tflush 4 3, .treadStart 3 8 1,
   .treadDone (.ok [9, 9]) 3 0 2]

/-- C9: processing any incoming frame re-registers its tag with a fresh
empty scratch before dispatching; immediately afterwards
`should_abort(t)` is false and any earlier scratch for t is gone.
Consequently reusing a flushed tag re-enables replies from a
still-running handler aborted under that tag: in `zombieTrace` the
first Tread's callback, resumed after the flush and the tag reuse,
produces an `Rread` for tag 3 after the `Rflush`. -/
theorem c9_fresh_scratch_reenables :
    (∀ (s : Server) (t : Nat),
      (addTag s t).pendingTags t = some none ∧
      shouldAbortRequest (addTag s t) t = false ∧
      (step s (.treadStart t 0 0)).pendingTags t = some none) ∧
    (runEvents initServer zombieTrace).replies
      = [(P9_TFLUSH + 1, 4), (P9_TREAD + 1, 3)] := by
  constructor
  · intro s t
    refine ⟨by simp [addTag], by simp [shouldAbortRequest, addTag], ?_⟩
    simp [step, treadStart, addTag]
  · decide

/-! ## C10: MemoryFileStorage -/

/-- C10: for `MemoryFileStorage` and a non-empty key, `read` resolves to
null exactly when the key has no cached data; after `cache(k, d)` it
resolves to `d.subarray(offset, offset + count)`, and after `uncache(k)`
to null again. -/
theorem c10_memory_storage (st : MemoryFileStorage) (k : String)
    (offset count : Nat) (d : List Nat) (hk : k ≠ "") :
    (MemoryFileStorage.read st k offset count = none
       ↔ st.filedata k = none) ∧
    MemoryFileStorage.read (MemoryFileStorage.cache st k d) k offset count
      = some (jsSubarray d offset (offset + count)) ∧
    MemoryFileStorage.read (MemoryFileStorage.uncache st k) k offset count
      = none := by
  refine ⟨?_, ?_, ?_⟩
  · unfold MemoryFileStorage.read
    cases st.filedata k <;> simp
  · unfold MemoryFileStorage.read MemoryFileStorage.cache
    simp
  · unfold MemoryFileStorage.read MemoryFileStorage.uncache
    simp

/-- An empty `MemoryFileStorage`. -/
def emptyStorage : MemoryFileStorage := { filedata := fun _ => none }

/-- Witness for the `MemoryFileStorage` theorem at key "abc". -/
theorem c10_memory_storage_witness :
    ("abc" : String) ≠ "" ∧
    ((MemoryFileStorage.read emptyStorage "abc" 1 2 = none
        ↔ emptyStorage.filedata "abc" = none) ∧
     MemoryFileStorage.read
        (MemoryFileStorage.cache emptyStorage "abc" [5, 6, 7]) "abc" 1 2
       = some (jsSubarray [5, 6, 7] 1 (1 + 2)) ∧
     MemoryFileStorage.read
        (MemoryFileStorage.uncache emptyStorage "abc") "abc" 1 2 = none) :=
  ⟨by decide, c10_memory_storage emptyStorage "abc" 1 2 [5, 6, 7] (by decide)⟩

/-! ## C4: unknown fids -/

/-- C4: the claim states that a request referencing a fid with no record
replies `Rlerror` with EBADF (9).  On an empty fid table, Tlopen on
fid 5 instead throws an uncaught `TypeError` (the handler dereferences
`this.fids[fid].path` of `undefined`), so no reply of any kind is
produced: the claim as stated is false. -/
theorem c4_counterexample :
    tlopenStep statENOENT 3 5 initServer = .error .typeError ∧
    exceptOk (tlopenStep statENOENT 3 5 initServer) = false ∧
    exceptReplies (tlopenStep statENOENT 3 5 initServer) = none ∧
    tclunkStep 3 5 initServer = .error .typeError :=
  ⟨rfl, rfl, rfl, rfl⟩

/-- C4 (amended): a request referencing a fid with no record in the fid
table (here Tlopen and Tclunk) throws an uncaught `TypeError` before any
backend call or reply — there is no EBADF check. -/
theorem c4_unknown_fid_throws (stat : String → Except String Stats)
    (tag fid : Nat) (s : Server) (h : s.fids fid = none) :
    tlopenStep stat tag fid s = .error .typeError ∧
    tclunkStep tag fid s = .error .typeError := by
  unfold tlopenStep tclunkStep
  simp [addTag, h]

/-- Witness: Tlopen and Tclunk on the unknown fid 5 of a fresh server. -/
theorem c4_unknown_fid_throws_witness :
    initServer.fids 5 = none ∧
    (tlopenStep statENOENT 3 5 initServer = .error .typeError ∧
     tclunkStep 3 5 initServer = .error .typeError) :=
  ⟨rfl, c4_unknown_fid_throws statENOENT 3 5 initServer rfl⟩

/-! ## C2: Tflush -/

theorem addTag_pendingTags_self (s : Server) (t : Nat) :
    (addTag s t).pendingTags t = some none := by
  simp [addTag]

theorem tflushStep_pendingTags_oldtag (s : Server) (ftag t : Nat) :
    (tflushStep ftag t s).pendingTags t = none := by
  simp [tflushStep, sendReplyPayload, flushTag, addTag]

/-- Any event whose tag differs from `t` leaves a flushed tag `t`
flushed. -/
theorem step_preserves_flushed (s : Server) (e : Event) (t : Nat)
    (ht : eventTag e ≠ t) (hp : s.pendingTags t = none) :
    (step s e).pendingTags t = none := by
  cases e with
  | treadStart tag offset count =>
    replace ht : tag ≠ t := ht
    simp [step, treadStart, addTag, Ne.symm ht, hp]
  | treadDone res tag offset count =>
    replace ht : tag ≠ t := ht
    rcases hab : shouldAbortRequest s tag with _ | _
    · cases res with
      | error e =>
        simp [step, treadDone, hab, sendErrorSrv, sendReplyPayload,
          flushTag, Ne.symm ht, hp]
      | ok data =>
        simp [step, treadDone, hab, treadReply, sendReplyPayload,
          flushTag, setTagData, Ne.symm ht, hp]
    · simp [step, treadDone, hab, hp]
  | tsetattrStart tag =>
    replace ht : tag ≠ t := ht
    simp [step, tsetattrStart, addTag, Ne.symm ht, hp]
  | tsetattrDone res tag =>
    replace ht : tag ≠ t := ht
    cases res with
    | error e =>
      simp [step, tsetattrDone, sendErrorSrv, sendReplyPayload,
        flushTag, Ne.symm ht, hp]
    | ok u =>
      simp [step, tsetattrDone, sendReplyPayload, flushTag,
        Ne.symm ht, hp]
  | tflush tag oldtag =>
    replace ht : tag ≠ t := ht
    by_cases hot : t = oldtag
    · simp [step, tflushStep, sendReplyPayload, flushTag, addTag,
        Ne.symm ht, hot]
    · simp [step, tflushStep, sendReplyPayload, flushTag, addTag,
        Ne.symm ht, hot, hp]

/-- A sequence of events touching only other tags leaves a flushed tag
flushed. -/
theorem runEvents_preserves_flushed (evs : List Event) :
    ∀ (s : Server) (t : Nat), (∀ e ∈ evs, eventTag e ≠ t) →
    s.pendingTags t = none → (runEvents s evs).pendingTags t = none := by
  induction evs with
  | nil => intro s t _ hp; exact hp
  | cons e evs ih =>
    intro s t h hp
    exact ih (step s e) t (fun x hx => h x (by simp [hx]))
      (step_preserves_flushed s e t (h e (by simp)) hp)

/-- C2 (amended): processing `Tflush(oldtag=t)` removes t from the tag
registry and answers with exactly one `Rflush`.  For the handlers whose
backend callbacks re-check `should_abort` (Tread here, like every other
`fs`-callback handler), provided no later frame arrives carrying tag t,
every later resumption observes `should_abort(t)` and returns leaving
the state — reply buffer and reply log included — untouched.  The
Tsetattr completion, however, performs no such check: its `Promise.all`
settlement still sends a reply for the flushed tag t (an `Rsetattr` on
success, an `Rlerror` on rejection), with no tag reuse involved. -/
theorem c2_flush_aborts (s : Server) (ftag t : Nat) (evs : List Event)
    (res : Except String (List Nat)) (offset count : Nat) (ec : String)
    (hevs : ∀ e ∈ evs, eventTag e ≠ t) :
    (tflushStep ftag t s).pendingTags t = none ∧
    shouldAbortRequest (tflushStep ftag t s) t = true ∧
    (tflushStep ftag t s).replies = s.replies ++ [(P9_TFLUSH + 1, ftag)] ∧
    step (runEvents (tflushStep ftag t s) evs)
        (.treadDone res t offset count)
      = runEvents (tflushStep ftag t s) evs ∧
    (step (runEvents (tflushStep ftag t s) evs)
        (.tsetattrDone (.ok ()) t)).replies
      = (runEvents (tflushStep ftag t s) evs).replies
          ++ [(P9_TSETATTR + 1, t)] ∧
    (step (runEvents (tflushStep ftag t s) evs)
        (.tsetattrDone (.error ec) t)).replies
      = (runEvents (tflushStep ftag t s) evs).replies ++ [(7, t)] := by
  have h1 : (tflushStep ftag t s).pendingTags t = none :=
    tflushStep_pendingTags_oldtag s ftag t
  have h2 : (runEvents (tflushStep ftag t s) evs).pendingTags t = none :=
    runEvents_preserves_flushed evs _ t hevs h1
  refine ⟨h1, ?_, rfl, ?_, rfl, rfl⟩
  · simp [shouldAbortRequest, h1]
  · simp [step, treadDone, shouldAbortRequest, h2]

/-- Witness: flush tag 5 while its Tread is in flight, let a Tread on
tag 9 pass, then resume the original callback; a Tsetattr settlement on
the same flushed tag still replies. -/
theorem c2_flush_aborts_witness :
    (∀ e ∈ flushDemoEvents, eventTag e ≠ 5) ∧
    ((tflushStep 6 5 flushDemoStart).pendingTags 5 = none ∧
     shouldAbortRequest (tflushStep 6 5 flushDemoStart) 5 = true ∧
     (tflushStep 6 5 flushDemoStart).replies
       = flushDemoStart.replies ++ [(P9_TFLUSH + 1, 6)] ∧
     step (runEvents (tflushStep 6 5 flushDemoStart) flushDemoEvents)
         (.treadDone (.ok [7, 7, 7]) 5 0 3)
       = runEvents (tflushStep 6 5 flushDemoStart) flushDemoEvents ∧
     (step (runEvents (tflushStep 6 5 flushDemoStart) flushDemoEvents)
         (.tsetattrDone (.ok ()) 5)).replies
       = (runEvents (tflushStep 6 5 flushDemoStart) flushDemoEvents).replies
           ++ [(P9_TSETATTR + 1, 5)] ∧
     (step (runEvents (tflushStep 6 5 flushDemoStart) flushDemoEvents)
         (.tsetattrDone (.error "EPERM") 5)).replies
       = (runEvents (tflushStep 6 5 flushDemoStart) flushDemoEvents).replies
           ++ [(7, 5)]) :=
  ⟨by decide,
   c2_flush_aborts flushDemoStart 6 5 flushDemoEvents (.ok [7, 7, 7]) 0 3
     "EPERM" (by decide)⟩

/-- A Tsetattr on tag 5 flushed before its backend work settles: frame
arrival, `Tflush(5)` (tag 6), then the `Promise.all` settlement — tag 5
is never reused. -/
def setattrFlushTrace : List Event :=
  [.tsetattrStart 5, .tflush 6 5, .tsetattrDone (.ok ()) 5]

/-- C2: the claim — that after `Tflush(oldtag=t)` no reply for tag t is
ever produced and every resumption aborts — is false of the program on
two counts.  In `setattrFlushTrace` the flushed Tsetattr's settlement
has no `should_abort` check and sends `Rsetattr` for tag 5 after the
`Rflush`, with no tag reuse at all; and in `reuseTrace` the original
Tread resumption (offset 0, count 2) survives a tag reuse, does not
abort, and produces an `Rread` for tag 5. -/
theorem c2_counterexample :
    (runEvents initServer setattrFlushTrace).replies
      = [(P9_TFLUSH + 1, 6), (P9_TSETATTR + 1, 5)] ∧
    (runEvents initServer reuseTrace).replies
      = [(P9_TFLUSH + 1, 6), (P9_TREAD + 1, 5)] ∧
    shouldAbortRequest (runEvents initServer (reuseTrace.take 3)) 5
      = false := by
  decide

/-! ## C7: Tread clamping -/

theorem marshallW_mod (m : Nat) : marshallW (m % 2 ^ 32) = marshallW m := by
  simp only [marshallW, List.cons.injEq, and_true]
  refine ⟨by omega, by omega, by omega, by omega⟩

theorem readData_eq_drop (data : List Nat) (offset : Nat)
    (h : offset ≤ data.length) :
    readData data offset (data.length - offset) = data.drop offset := by
  apply List.ext_getElem
  · simp [readData]
  · intro i h1 h2
    simp only [readData, List.getElem_map, List.getElem_range,
      List.getElem_drop]
    rw [List.getD_eq_getElem]

/-- C7: when `offset + count` exceeds the file size (and the offset is
within the file), `_read` clamps the returned count to
`file_size − offset` and the `Rread` payload is `count[4]` followed by
exactly that many bytes of the file contents starting at `offset`. -/
theorem c7_read_clamp (data : List Nat) (offset count : Nat)
    (h1 : data.length < offset + count) (h2 : offset ≤ data.length) :
    jsReadCount data.length offset count
      = ((data.length - offset : Nat) : Int) ∧
    readPayload data offset count
      = marshallW (data.length - offset) ++ data.drop offset := by
  have hc : jsReadCount data.length offset count
      = ((data.length - offset : Nat) : Int) := by
    unfold jsReadCount
    rw [if_pos h1]
    omega
  refine ⟨hc, ?_⟩
  unfold readPayload
  rw [hc]
  have hu : jsToUint32 ((data.length - offset : Nat) : Int)
      = (data.length - offset) % 2 ^ 32 := by
    unfold jsToUint32
    omega
  rw [hu, marshallW_mod, Int.toNat_natCast, readData_eq_drop data offset h2]

/-- Witness: reading 5 bytes at offset 1 of a 3-byte file clamps the
count to 2 and returns the last two bytes. -/
theorem c7_read_clamp_witness :
    ([10, 20, 30] : List Nat).length < 1 + 5 ∧
    1 ≤ ([10, 20, 30] : List Nat).length ∧
    (jsReadCount ([10, 20, 30] : List Nat).length 1 5
       = ((([10, 20, 30] : List Nat).length - 1 : Nat) : Int) ∧
     readPayload [10, 20, 30] 1 5
       = marshallW (([10, 20, 30] : List Nat).length - 1)
           ++ ([10, 20, 30] : List Nat).drop 1) :=
  ⟨by decide, by decide, c7_read_clamp [10, 20, 30] 1 5 (by decide) (by decide)⟩

/-! ## C8: purity and range of the QID assigner -/

theorem char_toNat_lt (ch : Char) : ch.toNat < 2 ^ 32 := by
  have h := ch.valid
  rcases h with h | h
  · unfold Char.toNat; omega
  · unfold Char.toNat; omega

theorem utf16CodeUnits_lt (ch : Char) :
    ∀ c ∈ utf16CodeUnits ch, c < 2 ^ 32 := by
  intro c hc
  have hv := char_toNat_lt ch
  simp only [utf16CodeUnits] at hc
  split at hc <;> simp at hc
  · omega
  · rcases hc with hc | hc <;> omega

theorem hash32Step_lt (h c : Nat) (hc : c < 2 ^ 32) :
    hash32Step h c < 2 ^ 32 := by
  unfold hash32Step
  exact Nat.xor_lt_two_pow (Nat.mod_lt _ (by norm_num)) hc

theorem foldl_hash32Step_lt (l : List Nat) :
    ∀ h, h < 2 ^ 32 → (∀ c ∈ l, c < 2 ^ 32) →
    l.foldl hash32Step h < 2 ^ 32 := by
  induction l with
  | nil => intro h hh _; simpa using hh
  | cons c l ih =>
    intro h hh hl
    exact ih _ (hash32Step_lt _ _ (hl c (by simp)))
      (fun x hx => hl x (by simp [hx]))

/-- The 32-bit hash really fits in 32 bits (the source takes the result
unsigned with `>>> 0`). -/
theorem hash32_lt (s : String) : hash32 s < 2 ^ 32 := by
  unfold hash32
  apply foldl_hash32Step_lt
  · norm_num
  · intro c hc
    rw [List.mem_reverse] at hc
    unfold strCodeUnits at hc
    rw [List.mem_flatMap] at hc
    obtain ⟨ch, _, hch⟩ := hc
    exact utf16CodeUnits_lt ch c hch

/-- C8: the QID assigner is a pure function of the backend stats — equal
node identifier, version and type yield the same QID record and
byte-identical marshalled QIDs — and the QID path equals `hash32` of the
node identifier, whose high 32 bits are zero in the u64 path field. -/
theorem c8_qid_pure (p1 p2 : String) (s1 s2 : Stats)
    (hn : s1.node = s2.node) (hv : s1.version = s2.version)
    (ht : s1.type = s2.type) :
    formatQid p1 s1 = formatQid p2 s2 ∧
    marshallQ (formatQid p1 s1) = marshallQ (formatQid p2 s2) ∧
    (formatQid p1 s1).path = hash32 s1.node ∧
    (formatQid p1 s1).path / 2 ^ 32 = 0 := by
  have h : formatQid p1 s1 = formatQid p2 s2 := by
    unfold formatQid
    rw [hn, hv, ht]
  exact ⟨h, by rw [h], rfl, Nat.div_eq_of_lt (hash32_lt _)⟩

/-- Two stats reporting the same backend node, version and type. -/
def statSameA : Stats := { type := "FILE", version := 3, node := "inode42", uid := 0 }

/-- Like `statSameA` but observed through another path and owner. -/
def statSameB : Stats := { type := "FILE", version := 3, node := "inode42", uid := 7 }

/-- Witness: the QIDs of `statSameA`/`statSameB` coincide under
different paths. -/
theorem c8_qid_pure_witness :
    statSameA.node = statSameB.node ∧ statSameA.version = statSameB.version ∧
    statSameA.type = statSameB.type ∧
    (formatQid "/a" statSameA = formatQid "/b" statSameB ∧
     marshallQ (formatQid "/a" statSameA) = marshallQ (formatQid "/b" statSameB) ∧
     (formatQid "/a" statSameA).path = hash32 statSameA.node ∧
     (formatQid "/a" statSameA).path / 2 ^ 32 = 0) :=
  ⟨rfl, rfl, rfl, c8_qid_pure "/a" "/b" statSameA statSameB rfl rfl rfl⟩

/-! ## C6: Twalk failure leaves a partial binding -/

theorem setFid_pendingTags (s : Server) (fid : Nat) (f : Fid) :
    (setFid s fid f).pendingTags = s.pendingTags := rfl

theorem walkLoop_fail (stat : String → Except String Stats)
    (tag nwfid : Nat) (parts : List String) :
    ∀ (path : String) (nwidx : Nat) (qids : List Nat) (s : Server),
    s.pendingTags tag = some none →
    walkFails stat path parts = true →
    (walkLoop stat tag nwfid parts path nwidx qids s).replies
      = s.replies ++ [(7, tag)] ∧
    (walkLoop stat tag nwfid parts path nwidx qids s).replybuffer
      = buildReplyBytes 6 tag
          (marshallWJs (posixErrCodeMap (firstWalkErr stat path parts))) ∧
    (walkLoop stat tag nwfid parts path nwidx qids s).fids nwfid
      = walkBindResult stat path parts (s.fids nwfid) := by
  induction parts with
  | nil =>
    intro path nwidx qids s hp hf
    simp [walkFails] at hf
  | cons part rest ih =>
    intro path nwidx qids s hp hf
    have hab : shouldAbortRequest s tag = false := by
      simp [shouldAbortRequest, hp]
    by_cases hpart : part = ""
    · simp [walkFails, hpart] at hf
    · rcases hstat : stat (pathJoin path part) with e | st
      · simp only [walkLoop, hpart, if_false, hab, hstat,
          Bool.false_eq_true]
        refine ⟨rfl, ?_, ?_⟩
        · simp only [firstWalkErr, hpart, if_false, hstat]
          rfl
        · simp only [walkBindResult, hpart, if_false, hstat]
          rfl
      · simp only [walkFails, hpart, if_false, hstat] at hf
        simp only [walkLoop, hpart, if_false, hab, hstat,
          Bool.false_eq_true]
        have hp' : (setFid s nwfid
            (Createfid (pathJoin path part) FID_INODE st.uid)).pendingTags tag
            = some none := hp
        obtain ⟨h1, h2, h3⟩ := ih (pathJoin path part) (nwidx + 1)
          (qids ++ marshallQ (formatQid (pathJoin path part) st))
          (setFid s nwfid (Createfid (pathJoin path part) FID_INODE st.uid))
          hp' hf
        refine ⟨h1, ?_, ?_⟩
        · rw [h2]
          simp only [firstWalkErr, hpart, if_false, hstat]
        · rw [h3]
          simp [walkBindResult, hpart, hstat, setFid]

/-- C6 (amended): when some component's `stat` fails during a Twalk with
`nwname ≥ 1`, the server returns `Rlerror` with that component's error,
but `newfid` is rebound at every successful component before the
failure: after the reply it holds the last successfully walked path
(only a failure at the first component leaves it unchanged).  The
`walkFails` hypothesis means a `stat` genuinely fails: an empty-string
component occurring first would instead end the walk early with an
`Rwalk` success reply (the `if(!part)` check), and then `walkFails` is
false. -/
theorem c6_walk_binds_partial (stat : String → Except String Stats)
    (tag fid nwfid : Nat) (parts : List String) (s : Server) (f : Fid)
    (hf : s.fids fid = some f) (hne : parts ≠ [])
    (hfail : walkFails stat f.path parts = true) :
    exceptReplies (twalkStep stat tag fid nwfid parts s)
      = some (s.replies ++ [(7, tag)]) ∧
    exceptBuffer (twalkStep stat tag fid nwfid parts s)
      = some (buildReplyBytes 6 tag
          (marshallWJs (posixErrCodeMap (firstWalkErr stat f.path parts)))) ∧
    exceptFids (twalkStep stat tag fid nwfid parts s) nwfid
      = some (walkBindResult stat f.path parts (s.fids nwfid)) := by
  cases parts with
  | nil => exact absurd rfl hne
  | cons p rest =>
    have hfa : (addTag s tag).fids fid = some f := hf
    have hp : (addTag s tag).pendingTags tag = some none :=
      addTag_pendingTags_self s tag
    obtain ⟨h1, h2, h3⟩ := walkLoop_fail stat tag nwfid (p :: rest) f.path 0 []
      (addTag s tag) hp hfail
    simp only [twalkStep, hfa]
    exact ⟨by simp only [exceptReplies]; rw [h1]; rfl,
           by simp only [exceptBuffer]; rw [h2],
           by simp only [exceptFids]; rw [h3]; rfl⟩

/-- A backend in which "/a" exists but nothing under it does. -/
def walkStat : String → Except String Stats
  | "/a" => .ok { type := "DIRECTORY", version := 1, node := "node-a", uid := 100 }
  | _ => .error "ENOENT"

/-- Running `Twalk fid=0 newfid=1 ["a", "b"]` against `walkStat`: the second
component fails. -/
def walkRun : Except JsError Server :=
  twalkStep walkStat 1 0 1 ["a", "b"] attachedServer

/-- C6: the claim states that on a failing component the server does not
bind `newfid`.  Walking `["a", "b"]` from "/" with `stat("/a")`
succeeding and `stat("/a/b")` failing produces the `Rlerror`, yet
`newfid` 1 — unbound before the request — ends up bound to "/a": the
claim as stated is false. -/
theorem c6_counterexample :
    exceptReplies walkRun = some [(7, 1)] ∧
    exceptFids walkRun 1 = some (some (Createfid "/a" FID_INODE 100)) ∧
    attachedServer.fids 1 = none := by
  decide

/-- Witness: the amended Twalk theorem at the `walkRun` input. -/
theorem c6_walk_binds_partial_witness :
    attachedServer.fids 0 = some (Createfid "/" FID_INODE 0) ∧
    (["a", "b"] : List String) ≠ [] ∧
    walkFails walkStat (Createfid "/" FID_INODE 0).path ["a", "b"] = true ∧
    (exceptReplies (twalkStep walkStat 1 0 1 ["a", "b"] attachedServer)
       = some (attachedServer.replies ++ [(7, 1)]) ∧
     exceptBuffer (twalkStep walkStat 1 0 1 ["a", "b"] attachedServer)
       = some (buildReplyBytes 6 1 (marshallWJs (posixErrCodeMap
           (firstWalkErr walkStat (Createfid "/" FID_INODE 0).path
             ["a", "b"])))) ∧
     exceptFids (twalkStep walkStat 1 0 1 ["a", "b"] attachedServer) 1
       = some (walkBindResult walkStat (Createfid "/" FID_INODE 0).path
           ["a", "b"] (attachedServer.fids 1))) :=
  ⟨rfl, by decide, by decide,
   c6_walk_binds_partial walkStat 1 0 1 ["a", "b"] attachedServer
     (Createfid "/" FID_INODE 0) rfl (by decide) (by decide)⟩
